import Mathlib

/-!
Verification of the pg_prefaulter agent against its specification.

The development shallowly embeds the Go source:
- `agent/iocache/cache.go` : the I/O cache worker pool and purge,
- the agent database file  : `dbState`, `getWALFilesDB`, `queryLag`,
  `predictDBWALFilenames`, `getPostgresVersion`.

Go multi-returns `(value, error)` are modelled as pairs with `Option GoErr`;
fallible paths that in Go would panic are modelled with an explicit
constructor.  Machine integers are `Nat`/`Int`; the only width-sensitive
spot is `strconv.ParseUint(s, 10, 32)`, modelled with an explicit
`2 ^ 32` bound, and the `math.MaxInt64` lag sentinel, modelled as
`2 ^ 63 - 1`.
-/

/-- Go error values: either a fresh error or a `pkg/errors`-style wrap. -/
inductive GoErr : Type where
  | mk (msg : String) : GoErr
  | wrapped (msg : String) (cause : GoErr) : GoErr
deriving DecidableEq, Repr

/-- `errors.Wrap(err, msg)` from pkg/errors: returns nil when `err` is nil,
otherwise wraps it.  The nil-propagating behaviour is load-bearing for the
`rows.Err()` branch of `queryLag`. -/
def goWrap (e : Option GoErr) (msg : String) : Option GoErr :=
  match e with
  | none => none
  | some err => some (GoErr.wrapped msg err)

/-- Decimal value of a digit character list, `none` when empty or when any
character is not a digit. -/
def digitsToNat (cs : List Char) : Option Nat :=
  if cs ≠ [] ∧ cs.all Char.isDigit then
    some (cs.foldl (fun n c => n * 10 + (c.toNat - 48)) 0)
  else
    none

/-- `strconv.ParseUint(s, 10, bitSize)`: decimal digits only, value must fit
in `bitSize` bits.  Returns `none` on any parse or range error. -/
def goParseUint (cs : List Char) (bitSize : Nat) : Option Nat :=
  match digitsToNat cs with
  | none => none
  | some v => if v < 2 ^ bitSize then some v else none

/-- `strings.Split(s, ".")` on the character list of `s`: always returns at
least one (possibly empty) component. -/
def splitOnDot : List Char → List (List Char)
  | [] => [[]]
  | c :: rest =>
    let r := splitOnDot rest
    if c = '.' then [] :: r
    else (c :: r.headD []) :: r.tail

/-- Decimal digit characters of `n`, most significant first. -/
def natDigits (n : Nat) : List Char :=
  Nat.toDigits 10 n

/-! ## getPostgresVersion

Embeds the parsing core of `Agent.getPostgresVersion`: the first line of
`PG_VERSION` has already been extracted by the scanner; the file-read and
scanner errors are not modelled (they only prepend further error returns).
The Go code indexes `parts[1]` without a length check, which panics when
the split produced a single component; the embedding makes that outcome an
explicit constructor. -/

/-- Outcome of `getPostgresVersion` on a version line: a normalised version,
an error return, or a runtime panic (index out of range). -/
inductive PGVerResult : Type where
  | ok (v : Nat) : PGVerResult
  | err (msg : String) : PGVerResult
  | panicked : PGVerResult
deriving DecidableEq, Repr

/-- `Agent.getPostgresVersion`, from the version line onwards:
split on ".", parse the first component, and rebuild the
`server_version_num`-style string.  For `first < 10` the code reads
`parts[1]` unconditionally. -/
def getPostgresVersion (versionStringRaw : String) : PGVerResult :=
  let parts := splitOnDot versionStringRaw.toList
  match goParseUint (parts.headD []) 32 with
  | none => .err "unable to parse first section of version"
  | some first =>
    if first < 10 then
      match parts[1]? with
      | none => .panicked
      | some second =>
        let pgVersionString := natDigits (first * 10) ++ second ++ ['0', '0']
        match goParseUint pgVersionString 32 with
        | none => .err "unable to parse version back to integer"
        | some v => .ok v
    else
      let pgVersionString := natDigits first ++ ['0', '0', '0', '0']
      match goParseUint pgVersionString 32 with
      | none => .err "unable to parse version back to integer"
      | some v => .ok v

/-- The normalisation formula exactly as the spec words it:
`first < 10 ? (first*10)*100 + second*100 : first*10000`. -/
def specNormaliseFormula (first second : Nat) : Nat :=
  if first < 10 then (first * 10) * 100 + second * 100 else first * 10000

/-- The formula the code actually implements on one-digit minors:
`first*10000 + second*100` (with `second = 0` once `first ≥ 10`). -/
def codeNormaliseFormula (first second : Nat) : Nat :=
  if first < 10 then first * 10000 + second * 100 else first * 10000

example : getPostgresVersion "9.6" = .ok 90600 := by decide
example : getPostgresVersion "11" = .ok 110000 := by decide
example : getPostgresVersion "9" = .panicked := by decide

/-! ## I/O cache (agent/iocache/cache.go)

`structs.IOCacheKey` is the block reference used as the cache key.  The
gcache ARC cache with `LoaderExpireFunc` is modelled by its per-key
load-deduplication protocol: a `request` (gcache `Get`) on a present key is
a hit; on a miss the loader body from `New` runs inside the per-key
critical section, enqueueing the key on the work channel and installing the
marker entry with the configured TTL.  Eviction and TTL expiry are
modelled as explicit removals; "within the TTL window and with no
intervening eviction" is the absence of such removals between requests. -/

/-- `structs.IOCacheKey`: the (database, relation, block) block reference. -/
structure IOCacheKey : Type where
  Database : Nat
  Relation : Nat
  Block : Nat
deriving DecidableEq, Repr

/-- State of the I/O cache: the set of keys currently present (marker
installed and not yet expired or evicted), as a duplicate-free list. -/
structure IOCacheState : Type where
  present : List IOCacheKey
deriving DecidableEq, Repr

/-- One `request` (gcache `Get` with the loader from `New`): a hit returns
the state unchanged with no enqueue; a miss installs the marker and
enqueues the key exactly once.  Returns the new state and the number of
enqueues onto the work channel. -/
def request (s : IOCacheState) (k : IOCacheKey) : IOCacheState × Nat :=
  if k ∈ s.present then (s, 0)
  else (⟨k :: s.present⟩, 1)

/-- A sequence of requests, returning the final state and the total number
of enqueues onto the work channel. -/
def runRequests (s : IOCacheState) : List IOCacheKey → IOCacheState × Nat
  | [] => (s, 0)
  | k :: ks =>
    let r := request s k
    let rest := runRequests r.1 ks
    (rest.1, r.2 + rest.2)

/-- `gcache.Cache.Remove(k)` as used by the worker: drop the key. -/
def cacheRemove (s : IOCacheState) (k : IOCacheKey) : IOCacheState :=
  ⟨s.present.filter (fun x => x != k)⟩

/-- The worker body from `New` (cache.go lines 73-82) for one dequeued
request: when `PrefaultPage` returns an error the worker removes the key
from the cache and logs at warn level; on success it does neither.
Returns the cache state after the worker step and whether a warn-level
log was emitted. -/
def workerStep (s : IOCacheState) (ioReq : IOCacheKey)
    (prefaultErr : Option GoErr) : IOCacheState × Bool :=
  match prefaultErr with
  | some _ => (cacheRemove s ioReq, true)
  | none => (s, false)

/-- State of the file-handle cache: the open handles, keyed by
(database, relation, fork), abstracted to key lists. -/
structure FHCacheState : Type where
  handles : List (Nat × Nat × Nat)
deriving DecidableEq, Repr

/-- `IOCache.Purge` (cache.go lines 113-119): under the purge lock, purge
the gcache store and cascade to the file-handle cache. -/
def iocachePurge (_s : IOCacheState) (_fh : FHCacheState) :
    IOCacheState × FHCacheState :=
  (⟨[]⟩, ⟨[]⟩)

/-! ## Timeline check in getWALFilesDB

The claim C3 is about the sequencing inside `Agent.getWALFilesDB`: the
locked timeline check (purge on change, unless this is the first observed
timeline) runs before the per-LSN loop appends any predicted WAL file of
the new timeline.  The pass is modelled as the event trace it produces. -/

/-- Events emitted by one `getWALFilesDB` pass, in program order. -/
inductive TLEvent : Type where
  | purge : TLEvent
  | emit (walFile : String) : TLEvent
deriving DecidableEq, Repr

/-- The locked timeline check (part_000 lines 211-218): purge only when the
timeline changed and a previous timeline had been observed; always leave
`lastTimelineID` equal to the observed timeline. -/
def timelineCheck (lastTimelineID timelineID : Nat) : List TLEvent × Nat :=
  if lastTimelineID ≠ timelineID then
    (if lastTimelineID ≠ 0 then [TLEvent.purge] else [], timelineID)
  else ([], lastTimelineID)

/-- One `getWALFilesDB` pass after `QueryOldestLSNs` returned
`(timelineID, oldLSNs)`: the timeline check runs first, then each old LSN
contributes its predicted WAL files (abstracted by `predict`).  Returns
the event trace and the updated `lastTimelineID`. -/
def getWALFilesPass (lastTimelineID timelineID : Nat)
    (oldLSNs : List Nat) (predict : Nat → List String) :
    List TLEvent × Nat :=
  let tc := timelineCheck lastTimelineID timelineID
  (tc.1 ++ (oldLSNs.flatMap predict).map TLEvent.emit, tc.2)

/-- Number of purge events in a trace. -/
def countPurges (tr : List TLEvent) : Nat :=
  (tr.filter (fun e => e == TLEvent.purge)).length

/-- Every purge event in the trace precedes every emit event. -/
def purgesPrecedeEmits : List TLEvent → Bool
  | [] => true
  | TLEvent.purge :: rest => purgesPrecedeEmits rest
  | TLEvent.emit _ :: rest => countPurges rest == 0

/-! ## queryLag

Embeds `Agent.queryLag` (part_000 lines 281-320).  A Go float64 is
modelled as either NaN (the initial placeholder, never produced by a
successful scan of a byte count) or an integer value; `units.Base2Bytes`
is an int64.  The conversion `units.Base2Bytes(float64)` on NaN is the Go
implementation-defined float-to-int conversion, which on amd64 yields
`math.MinInt64`; what matters for the claims is only that it is not the
`math.MaxInt64` sentinel. -/

/-- A Go float64 as used by queryLag: NaN or an integral byte count. -/
inductive F64 : Type where
  | nan : F64
  | val (x : Int) : F64
deriving DecidableEq, Repr

/-- `units.Base2Bytes(f)` for `f : float64`: Go float-to-int conversion.
On NaN the result is implementation-defined; amd64 produces
`math.MinInt64`, which the model adopts. -/
def f64ToInt64 (f : F64) : Int :=
  match f with
  | F64.nan => -(2 ^ 63)
  | F64.val x => x

/-- The `unknownLag` sentinel: `units.Base2Bytes(math.MaxInt64)`. -/
def unknownLag : Int := 2 ^ 63 - 1

/-- One row of the lag query result as scanned by queryLag. -/
structure LagRow : Type where
  senderState : String
  syncState : String
  durabilityLagBytes : F64
  flushLagBytes : F64
  visibilityLagBytes : F64
  visibilityLagMs : F64
deriving DecidableEq, Repr

/-- The scan loop of queryLag (lines 306-313): each delivered row either
scans into a `LagRow` or fails with a scan error; a successful scan
overwrites `visibilityLagBytes`.  Returns the final value of the
`visibilityLagBytes` variable, or the first scan error. -/
def scanLagRows (vis : F64) : List (Except GoErr LagRow) → Except GoErr F64
  | [] => Except.ok vis
  | Except.error e :: _ => Except.error e
  | Except.ok row :: rest => scanLagRows row.visibilityLagBytes rest

/-- The database's answer to the lag query: either the query itself fails,
or it delivers a list of rows (each of which may fail to scan) together
with the final `rows.Err()` iteration status. -/
def LagQueryOutcome : Type := Except GoErr (List (Except GoErr LagRow) × Option GoErr)

/-- `Agent.queryLag` (lines 295-319).  Mirrors the Go error variable `err`:
it is nil after a successful `QueryEx`, and any scan failure returns
immediately, so on reaching the `rows.Err()` check `err` is always nil and
`errors.Wrap(err, ...)` — note: the code wraps `err`, not `rows.Err()` —
returns nil. -/
def queryLag (outcome : LagQueryOutcome) : Int × Option GoErr :=
  match outcome with
  | Except.error e =>
    (unknownLag, goWrap (some e) "unable to query lag")
  | Except.ok (rows, rowsErr) =>
    match scanLagRows F64.nan rows with
    | Except.error e =>
      (unknownLag, goWrap (some e) "unable to scan lag response")
    | Except.ok vis =>
      match rowsErr with
      | some _ => (unknownLag, goWrap none "unable to process lag")
      | none => (f64ToInt64 vis, none)

/-! ## predictDBWALFilenames

Embeds `Agent.predictDBWALFilenames` (part_000 lines 338-378) over an
environment carrying the outcomes of its collaborators: `dbState`,
`queryLag(_QueryLagFollower)`, `pg.ParseWalfile`, the configured
`walCache.ReadaheadBytes()`, and `lsn.Readahead`.  Besides the Go
`([]WALFilename, error)` return, the model records the trace of
collaborator calls actually made, so "issues no lag query" is a statement
about the trace. -/

/-- `_DBState` from the agent. -/
inductive DBState : Type where
  | unknown : DBState
  | primary : DBState
  | follower : DBState
deriving DecidableEq, Repr

/-- Collaborator calls `predictDBWALFilenames` can make, in program order. -/
inductive PredictCall : Type where
  | callDbState : PredictCall
  | callQueryLagFollower : PredictCall
  | callParseWalfile : PredictCall
  | callReadahead : PredictCall
deriving DecidableEq, Repr

/-- Environment for one `predictDBWALFilenames` invocation: the results its
collaborators would return if called. -/
structure PredictEnv : Type where
  dbStateRes : DBState × Option GoErr
  lagOutcome : LagQueryOutcome
  parseRes : Except GoErr (Nat × Int)
  readaheadBytes : Int
  readahead : Nat → Int → Int → List String

/-- `Agent.predictDBWALFilenames` on `walFile`: returns the Go
`([]WALFilename, error)` pair and the trace of collaborator calls.
The `_DBStateUnknown` case is unreachable below because `dbState` never
returns it with a nil error; the model maps it to the Go `panic` branch,
represented by `none`. -/
def predictDBWALFilenames (env : PredictEnv) (walFile : String) :
    Option ((List String × Option GoErr) × List PredictCall) :=
  match env.dbStateRes with
  | (_, some e) => some (([walFile], some e), [PredictCall.callDbState])
  | (DBState.primary, none) => some (([], none), [PredictCall.callDbState])
  | (DBState.unknown, none) => none
  | (DBState.follower, none) =>
    match queryLag env.lagOutcome with
    | (_, some e) =>
      some (([], some (GoErr.wrapped "unable to query follower lag" e)),
        [PredictCall.callDbState, PredictCall.callQueryLagFollower])
    | (visibilityLagBytes, none) =>
      match env.parseRes with
      | Except.error e =>
        some (([], some (GoErr.wrapped
          "unable to parse WAL file while predicting names from the DB" e)),
          [PredictCall.callDbState, PredictCall.callQueryLagFollower,
           PredictCall.callParseWalfile])
      | Except.ok (timelineID, lsn) =>
        let maxBytes :=
          if env.readaheadBytes > visibilityLagBytes then visibilityLagBytes
          else env.readaheadBytes
        some ((env.readahead timelineID lsn maxBytes, none),
          [PredictCall.callDbState, PredictCall.callQueryLagFollower,
           PredictCall.callParseWalfile, PredictCall.callReadahead])

/-! ## Helper lemmas -/

/-- Requests for a key already present in the cache never enqueue. -/
theorem runRequests_present (s : IOCacheState) (k : IOCacheKey)
    (hk : k ∈ s.present) : ∀ n, runRequests s (List.replicate n k) = (s, 0) := by
  intro n
  induction n with
  | zero => simp [runRequests]
  | succ m ih => simp [List.replicate_succ, runRequests, request, hk, ih]

/-- A trace of emit events alone contains no purge. -/
theorem countPurges_emits (ws : List String) :
    countPurges (ws.map TLEvent.emit) = 0 := by
  induction ws with
  | nil => simp [countPurges]
  | cons w rest _ih => simp [countPurges]

/-- In a trace of emit events alone, purges (vacuously) precede emits. -/
theorem purgesPrecedeEmits_emits (ws : List String) :
    purgesPrecedeEmits (ws.map TLEvent.emit) = true := by
  cases ws with
  | nil => simp [purgesPrecedeEmits]
  | cons w rest => simp [purgesPrecedeEmits, countPurges_emits]

/-- Scanning rows that all succeed leaves the visibility value of the last
row in the `visibilityLagBytes` variable. -/
theorem scanLagRows_all_ok (vis : F64) (pre : List LagRow) (lastRow : LagRow) :
    scanLagRows vis (pre.map Except.ok ++ [Except.ok lastRow]) =
      Except.ok lastRow.visibilityLagBytes := by
  induction pre generalizing vis with
  | nil => simp [scanLagRows]
  | cons r rest ih => simp [scanLagRows, ih]

/-- Scanning stops at the first row whose scan fails. -/
theorem scanLagRows_first_err (vis : F64) (pre : List LagRow) (bad : GoErr)
    (tail : List (Except GoErr LagRow)) :
    scanLagRows vis (pre.map Except.ok ++ Except.error bad :: tail) =
      Except.error bad := by
  induction pre generalizing vis with
  | nil => simp [scanLagRows]
  | cons r rest ih => simp [scanLagRows, ih]

/-! ## Claim theorems -/

/-- C1: For any BlockRef, within the TTL window and with no intervening
eviction or prefault failure, at most one prefault read is issued: a
request on a present key is a hit with no enqueue; on an empty cache, a
request followed by any number of duplicate requests (concurrent
duplicates serialise on the per-key critical section) enqueues the key on
the work channel exactly once, and the marker is installed by the first
request, so the duplicates observe a hit. -/
theorem iocache_dedup_single_enqueue (s : IOCacheState) (k : IOCacheKey)
    (n : Nat) (hk : k ∈ s.present) :
    request s k = (s, 0) ∧
    (runRequests ⟨[]⟩ (k :: List.replicate n k)).2 = 1 ∧
    k ∈ (request ⟨[]⟩ k).1.present := by
  refine ⟨by simp [request, hk], ?_, by simp [request]⟩
  have hfirst : request ⟨[]⟩ k = (⟨[k]⟩, 1) := by simp [request]
  have hmem : k ∈ (IOCacheState.mk [k]).present := by simp
  simp [runRequests, hfirst, runRequests_present _ _ hmem n]

/-- C1 witness: two requests for one concrete BlockRef on an empty cache
enqueue exactly once. -/
theorem iocache_dedup_single_enqueue_witness :
    request ⟨[⟨1, 2, 3⟩]⟩ ⟨1, 2, 3⟩ = (⟨[⟨1, 2, 3⟩]⟩, 0) ∧
    (runRequests ⟨[]⟩ [⟨1, 2, 3⟩, ⟨1, 2, 3⟩] : IOCacheState × Nat).2 = 1 ∧
    (⟨1, 2, 3⟩ : IOCacheKey) ∈ (request ⟨[]⟩ ⟨1, 2, 3⟩).1.present := by
  have h := iocache_dedup_single_enqueue ⟨[⟨1, 2, 3⟩]⟩ ⟨1, 2, 3⟩ 1 (by decide)
  simpa [List.replicate] using h

/-- C2: When the prefault attempt for a dequeued request fails, the worker
removes the key from the I/O cache and logs at warn level, so an identical
request afterwards misses and re-enqueues; on success the cache is left
unchanged, so a present key stays present. -/
theorem worker_failure_removes_entry (s : IOCacheState) (k : IOCacheKey)
    (e : GoErr) (hk : k ∈ s.present) :
    k ∈ s.present ∧
    (workerStep s k (some e)).2 = true ∧
    k ∉ (workerStep s k (some e)).1.present ∧
    request (workerStep s k (some e)).1 k =
      (⟨k :: (workerStep s k (some e)).1.present⟩, 1) ∧
    workerStep s k none = (s, false) := by
  have hnot : k ∉ (workerStep s k (some e)).1.present := by
    simp [workerStep, cacheRemove, List.mem_filter]
  exact ⟨hk, rfl, hnot, by simp [request, hnot], rfl⟩

/-- C2 witness: failure on a concrete cached key removes it and the retry
re-enqueues; success leaves the state alone. -/
theorem worker_failure_removes_entry_witness :
    (⟨4, 5, 6⟩ : IOCacheKey) ∈ (IOCacheState.mk [⟨4, 5, 6⟩]).present ∧
    (workerStep ⟨[⟨4, 5, 6⟩]⟩ ⟨4, 5, 6⟩ (some (GoErr.mk "no such file"))).2 = true ∧
    (⟨4, 5, 6⟩ : IOCacheKey) ∉
      (workerStep ⟨[⟨4, 5, 6⟩]⟩ ⟨4, 5, 6⟩ (some (GoErr.mk "no such file"))).1.present ∧
    request (workerStep ⟨[⟨4, 5, 6⟩]⟩ ⟨4, 5, 6⟩ (some (GoErr.mk "no such file"))).1 ⟨4, 5, 6⟩ =
      (⟨[⟨4, 5, 6⟩]⟩, 1) ∧
    workerStep ⟨[⟨4, 5, 6⟩]⟩ ⟨4, 5, 6⟩ none = (⟨[⟨4, 5, 6⟩]⟩, false) := by
  have h := worker_failure_removes_entry ⟨[⟨4, 5, 6⟩]⟩ ⟨4, 5, 6⟩
    (GoErr.mk "no such file") (by decide)
  simpa [workerStep, cacheRemove] using h

/-- C3: On a control-loop pass, a timeline different from a nonzero
`lastTimelineID` produces exactly one purge, and every purge in the trace
precedes every emitted WAL-file reference of the new timeline;
`lastTimelineID` is always left equal to the observed timeline, a zero
`lastTimelineID` (first observation) produces no purge, and the purge of
the I/O cache cascades to the file-handle cache. -/
theorem timeline_change_purges_once (lastTID tID : Nat) (lsns : List Nat)
    (predict : Nat → List String) (io : IOCacheState) (fh : FHCacheState)
    (hchange : lastTID ≠ tID) :
    (getWALFilesPass lastTID tID lsns predict).2 = tID ∧
    (lastTID ≠ 0 → countPurges (getWALFilesPass lastTID tID lsns predict).1 = 1) ∧
    (lastTID = 0 → countPurges (getWALFilesPass lastTID tID lsns predict).1 = 0) ∧
    purgesPrecedeEmits (getWALFilesPass lastTID tID lsns predict).1 = true ∧
    iocachePurge io fh = (⟨[]⟩, ⟨[]⟩) := by
  by_cases h0 : lastTID = 0
  · subst h0
    refine ⟨?_, fun hne => absurd rfl hne, fun _ => ?_, ?_, rfl⟩
    · simp [getWALFilesPass, timelineCheck, hchange]
    · simp [getWALFilesPass, timelineCheck, hchange, countPurges_emits]
    · simp [getWALFilesPass, timelineCheck, hchange, purgesPrecedeEmits_emits]
  · refine ⟨?_, fun _ => ?_, fun heq => absurd heq h0, ?_, rfl⟩
    · simp [getWALFilesPass, timelineCheck, hchange, h0]
    · simp [getWALFilesPass, timelineCheck, hchange, h0, countPurges,
        countPurges_emits]
      have := countPurges_emits (lsns.flatMap predict)
      simpa [countPurges] using this
    · simp [getWALFilesPass, timelineCheck, hchange, h0, purgesPrecedeEmits,
        countPurges_emits, purgesPrecedeEmits_emits]

/-- C3 witness: timeline 7 → 8 with one LSN purges exactly once before the
emits, and timeline 0 → 8 never purges (second call of the theorem). -/
theorem timeline_change_purges_once_witness :
    (getWALFilesPass 7 8 [1] (fun _ => ["000000080000000000000001"])).2 = 8 ∧
    countPurges (getWALFilesPass 7 8 [1]
      (fun _ => ["000000080000000000000001"])).1 = 1 ∧
    countPurges (getWALFilesPass 0 8 [1]
      (fun _ => ["000000080000000000000001"])).1 = 0 ∧
    purgesPrecedeEmits (getWALFilesPass 7 8 [1]
      (fun _ => ["000000080000000000000001"])).1 = true := by
  have h7 := timeline_change_purges_once 7 8 [1]
    (fun _ => ["000000080000000000000001"]) ⟨[]⟩ ⟨[]⟩ (by decide)
  have h0 := timeline_change_purges_once 0 8 [1]
    (fun _ => ["000000080000000000000001"]) ⟨[]⟩ ⟨[]⟩ (by decide)
  exact ⟨h7.1, h7.2.1 (by decide), h0.2.2.1 rfl, h7.2.2.2.1⟩

/-- C4: Whenever `dbState()` reports Primary, `predictDBWALFilenames`
returns an empty list with a nil error, and the collaborator trace stops at
the dbState call: no lag query, no WAL-filename parse, and no readahead
computation is performed. -/
theorem predict_primary_noop (env : PredictEnv) (walFile : String)
    (h : env.dbStateRes = (DBState.primary, none)) :
    predictDBWALFilenames env walFile =
      some (([], none), [PredictCall.callDbState]) := by
  unfold predictDBWALFilenames
  rw [h]

/-- C4 witness: a concrete primary environment produces the empty result
and only the dbState call. -/
theorem predict_primary_noop_witness :
    predictDBWALFilenames
      ⟨(DBState.primary, none), Except.ok ([], none), Except.ok (1, 0), 16777216,
        fun _ _ _ => []⟩ "000000010000000000000001" =
      some (([], none), [PredictCall.callDbState]) :=
  predict_primary_noop _ _ rfl

/-- C5: For a follower whose lag query and WAL-filename parse succeed, the
byte count handed to the readahead computation is exactly
`min(configured_readahead_bytes, visibility_lag_bytes)`. -/
theorem predict_follower_clamps_readahead (env : PredictEnv) (walFile : String)
    (lag : Int) (timelineID : Nat) (lsn : Int)
    (hdb : env.dbStateRes = (DBState.follower, none))
    (hlag : queryLag env.lagOutcome = (lag, none))
    (hparse : env.parseRes = Except.ok (timelineID, lsn)) :
    predictDBWALFilenames env walFile =
      some ((env.readahead timelineID lsn (min env.readaheadBytes lag), none),
        [PredictCall.callDbState, PredictCall.callQueryLagFollower,
         PredictCall.callParseWalfile, PredictCall.callReadahead]) := by
  unfold predictDBWALFilenames
  rw [hdb, hlag, hparse]
  have hmin : (if env.readaheadBytes > lag then lag else env.readaheadBytes) =
      min env.readaheadBytes lag := by
    rcases le_or_lt env.readaheadBytes lag with hle | hlt
    · simp [not_lt.mpr hle, min_eq_left hle]
    · simp [hlt, min_eq_right (le_of_lt hlt)]
  simp [hmin]

/-- C5 witness: configured readahead 16 MiB against a 4 MiB visibility lag
passes 4 MiB to the readahead computation. -/
theorem predict_follower_clamps_readahead_witness :
    predictDBWALFilenames
      ⟨(DBState.follower, none),
        Except.ok ([Except.ok ⟨"streaming", "async", F64.val 0, F64.val 0,
          F64.val 4194304, F64.val 25⟩], none),
        Except.ok (1, 11458838528), 16777216,
        fun _ _ b => [toString b]⟩ "0000000100000002000000AB" =
      some ((["4194304"], none),
        [PredictCall.callDbState, PredictCall.callQueryLagFollower,
         PredictCall.callParseWalfile, PredictCall.callReadahead]) := by
  have h := predict_follower_clamps_readahead
    ⟨(DBState.follower, none),
      Except.ok ([Except.ok ⟨"streaming", "async", F64.val 0, F64.val 0,
        F64.val 4194304, F64.val 25⟩], none),
      Except.ok (1, 11458838528), 16777216,
      fun _ _ b => [toString b]⟩ "0000000100000002000000AB"
    4194304 1 11458838528 rfl (by rfl) rfl
  simpa using h

/-- C6: A lag query that fails to execute, and a result row that fails to
scan, each make `queryLag` return the `math.MaxInt64` sentinel together
with a non-nil (wrapped) error; a fully successful query returns the
visibility lag scanned from the last row, with a nil error. -/
theorem queryLag_sentinel_and_success (e bad : GoErr) (vis : F64)
    (pre scanned : List LagRow) (tail : List (Except GoErr LagRow))
    (lastRow : LagRow) (rowsErr : Option GoErr)
    (hvis : lastRow.visibilityLagBytes = vis) :
    queryLag (Except.error e) =
      (unknownLag, some (GoErr.wrapped "unable to query lag" e)) ∧
    queryLag (Except.ok (scanned.map Except.ok ++ Except.error bad :: tail,
        rowsErr)) =
      (unknownLag, some (GoErr.wrapped "unable to scan lag response" bad)) ∧
    queryLag (Except.ok (pre.map Except.ok ++ [Except.ok lastRow], none)) =
      (f64ToInt64 vis, none) := by
  refine ⟨rfl, ?_, ?_⟩
  · simp [queryLag, scanLagRows_first_err, goWrap]
  · simp [queryLag, scanLagRows_all_ok, hvis]

/-- C6 witness: a concrete failed query, a concrete failed scan, and a
concrete successful one-row query. -/
theorem queryLag_sentinel_and_success_witness :
    queryLag (Except.error (GoErr.mk "connection refused")) =
      (unknownLag,
        some (GoErr.wrapped "unable to query lag" (GoErr.mk "connection refused"))) ∧
    queryLag (Except.ok ([Except.error (GoErr.mk "bad row")], none)) =
      (unknownLag,
        some (GoErr.wrapped "unable to scan lag response" (GoErr.mk "bad row"))) ∧
    queryLag (Except.ok ([Except.ok ⟨"streaming", "sync", F64.val 10, F64.val 20,
        F64.val 313, F64.val 5⟩], none)) = (313, none) := by
  have h := queryLag_sentinel_and_success (GoErr.mk "connection refused")
    (GoErr.mk "bad row") (F64.val 313) [] []
    ([] : List (Except GoErr LagRow))
    ⟨"streaming", "sync", F64.val 10, F64.val 20, F64.val 313, F64.val 5⟩
    none rfl
  simpa [f64ToInt64] using h

/-- C9 (failing input): a query that executes, delivers zero rows, and then
reports a row-iteration failure through `rows.Err()`.  The claim says this
must yield a non-nil error, but the code wraps the always-nil `err`
variable instead of `rows.Err()`, and `errors.Wrap(nil, ...)` is nil, so
the caller sees the sentinel value with a nil error. -/
theorem queryLag_rows_err_returns_nil_error :
    queryLag (Except.ok ([], some (GoErr.mk "connection reset during iteration"))) =
      (unknownLag, none) ∧
    queryLag (Except.ok ([], none)) = (f64ToInt64 F64.nan, none) ∧
    f64ToInt64 F64.nan ≠ unknownLag := by
  refine ⟨rfl, rfl, by decide⟩

/-- C10: If `dbState()` fails, `predictDBWALFilenames` returns a one-element
list holding exactly the input WAL filename together with the non-nil
error, regardless of the state value accompanying the error. -/
theorem predict_dbstate_error_returns_walfile (env : PredictEnv)
    (walFile : String) (st : DBState) (e : GoErr)
    (h : env.dbStateRes = (st, some e)) :
    predictDBWALFilenames env walFile =
      some (([walFile], some e), [PredictCall.callDbState]) := by
  unfold predictDBWALFilenames
  rw [h]
  cases st <;> rfl

/-- C10 witness: a concrete failing `pg_is_in_recovery` query hands back
the seed WAL filename with the error. -/
theorem predict_dbstate_error_returns_walfile_witness :
    predictDBWALFilenames
      ⟨(DBState.unknown, some (GoErr.mk "unable to execute primary check")),
        Except.ok ([], none), Except.ok (1, 0), 16777216, fun _ _ _ => []⟩
      "000000010000000000000007" =
      some ((["000000010000000000000007"],
        some (GoErr.mk "unable to execute primary check")),
        [PredictCall.callDbState]) :=
  predict_dbstate_error_returns_walfile _ _ DBState.unknown _ rfl

/-- C7 counterexample: the spec's own formula
`first < 10 ? (first*10)*100 + second*100 : first*10000` gives 9600 on the
components of "9.6", while `getPostgresVersion` yields 90600, so the claim
that the formula expresses the code's normalisation is false. -/
theorem specNormaliseFormula_disagrees_on_nine_six :
    specNormaliseFormula 9 6 = 9600 ∧
    getPostgresVersion "9.6" = PGVerResult.ok 90600 ∧
    specNormaliseFormula 9 6 ≠ 90600 := by
  refine ⟨by decide, by decide, by decide⟩

/-- C7 amended: `getPostgresVersion` normalises exactly as the spec's
examples state — "9.6" to 90600, "9.4" to 90400, "10" to 100000, "11" to
110000 — and those values obey the corrected formula
`first < 10 ? first*10000 + second*100 : first*10000`; moreover every
one-digit `<major>.<minor>` line with `1 ≤ major ≤ 9` normalises to the
corrected formula. -/
theorem getPostgresVersion_normalisation :
    getPostgresVersion "9.6" = PGVerResult.ok 90600 ∧
    getPostgresVersion "9.4" = PGVerResult.ok 90400 ∧
    getPostgresVersion "10" = PGVerResult.ok 100000 ∧
    getPostgresVersion "11" = PGVerResult.ok 110000 ∧
    codeNormaliseFormula 9 6 = 90600 ∧
    codeNormaliseFormula 9 4 = 90400 ∧
    codeNormaliseFormula 10 0 = 100000 ∧
    codeNormaliseFormula 11 0 = 110000 ∧
    ∀ mj : Fin 9, ∀ mn : Fin 10,
      getPostgresVersion
        (String.mk [Char.ofNat (49 + mj.val), '.', Char.ofNat (48 + mn.val)]) =
        PGVerResult.ok (codeNormaliseFormula (1 + mj.val) mn.val) := by
  refine ⟨by decide, by decide, by decide, by decide,
    by decide, by decide, by decide, by decide, by decide⟩

/-- C8 counterexample: the spec's accepted form includes a bare major with
no minor, but on the line "9" the code reaches `parts[1]` with a
single-element slice — the out-of-range access is reachable, and the call
crashes rather than returning a normalised version. -/
theorem getPostgresVersion_bare_nine_panics :
    getPostgresVersion "9" = PGVerResult.panicked := by decide

/-- C8 amended: the out-of-range access to the second version component is
confined to bare-major lines that parse below 10; any line whose split has
a second component, and any line whose first component parses to a major of
at least 10, is processed without crashing. -/
theorem getPostgresVersion_no_panic (s : String)
    (h : 2 ≤ (splitOnDot s.toList).length ∨
      ∀ v, goParseUint ((splitOnDot s.toList).headD []) 32 = some v → 10 ≤ v) :
    getPostgresVersion s ≠ PGVerResult.panicked := by
  rw [show s.toList = s.data from rfl] at h
  intro hpan
  replace hpan :
      (match goParseUint ((splitOnDot s.data).headD []) 32 with
       | none => PGVerResult.err "unable to parse first section of version"
       | some first =>
         if first < 10 then
           match (splitOnDot s.data)[1]? with
           | none => PGVerResult.panicked
           | some second =>
             match goParseUint (natDigits (first * 10) ++ second ++ ['0', '0']) 32 with
             | none => PGVerResult.err "unable to parse version back to integer"
             | some v => PGVerResult.ok v
         else
           match goParseUint (natDigits first ++ ['0', '0', '0', '0']) 32 with
           | none => PGVerResult.err "unable to parse version back to integer"
           | some v => PGVerResult.ok v) = PGVerResult.panicked := hpan
  split at hpan
  · simp at hpan
  · rename_i first hp
    split at hpan
    · split at hpan
      · rename_i hnone
        rcases h with hlen | hge
        · rcases hl : splitOnDot s.data with _ | ⟨a, t⟩
          · rw [hl] at hlen; simp at hlen
          · rcases t with _ | ⟨b, t2⟩
            · rw [hl] at hlen; simp at hlen
            · rw [hl] at hnone; simp at hnone
        · rename_i hlt
          exact absurd (hge first hp) (by omega)
      · split at hpan <;> simp at hpan
    · split at hpan <;> simp at hpan

/-- C8 amended witness: the line "9.6" satisfies the minor-present side and
does not crash. -/
theorem getPostgresVersion_no_panic_witness :
    getPostgresVersion "9.6" ≠ PGVerResult.panicked :=
  getPostgresVersion_no_panic "9.6" (Or.inl (by decide))
